import Mathlib

/-!
Shallow embedding of the Scan Recording & Alert Evaluation Engine of
app/main.py (Pet QR).

Modelling conventions:
* SQLite REAL values and Python floats are modelled as rationals; the
  transcendental haversine computation is modelled over the reals.
* ISO-8601 UTC timestamp strings are server generated and compare
  chronologically, so a timestamp is modelled by its UTC instant `utc`
  (an integer number of minutes, the unit of the burst window; the
  claims need no finer granularity) together with `localHour`, the hour
  obtained by the zoneinfo conversion to the configured time zone
  (an external library call, modelled abstractly as data).
* A JSON coordinate value taken from the request body is either a value
  on which Python float() succeeds (a number or numeric string),
  modelled as `JVal.num`, or one on which float() raises ValueError,
  modelled as `JVal.malformed`; an absent or null field is `Option.none`.
* Exceptions escaping a handler are modelled with `Except`: httpx raises
  on timeout and transport errors (`SinkBehavior.transportFail`) but not
  on a non-2xx response, and the source never calls raise_for_status.
* The environment-derived module globals (ALERT_* etc.) are gathered in
  a `Config` record passed explicitly.
-/

/-- A server timestamp: UTC instant in minutes (string comparison on the
ISO form agrees with comparison on `utc`) and the local-time hour after
the zoneinfo conversion used by is_night and local_time_str. -/
structure Timestamp where
  utc : ℤ
  localHour : ℕ
  deriving DecidableEq, Repr

/-- A JSON value used as a coordinate or accuracy in a request body:
`num q` when Python float() would return the number q (numbers and
numeric strings), `malformed` when float() would raise ValueError. -/
inductive JVal where
  | num (q : ℚ)
  | malformed
  deriving DecidableEq, Repr

/-- Exceptions that can escape the handlers. -/
inductive PyErr where
  /-- ValueError raised by float() on a malformed value. -/
  | valueError
  /-- httpx timeout / transport error raised by the awaited webhook post. -/
  | sinkError
  deriving DecidableEq, Repr

/-- Python float() on a JSON value (the guarded calls in the source). -/
def pyFloat : JVal → Except PyErr ℚ
  | .num q => .ok q
  | .malformed => .error .valueError

/-- Behaviour of the external Discord webhook during one request. -/
inductive SinkBehavior where
  /-- The HTTP post completed with the given status code (any status,
  2xx or not: the source never checks the response). -/
  | delivered (status : ℕ)
  /-- The post raised (timeout or transport failure). -/
  | transportFail
  deriving DecidableEq, Repr

/-- The environment-derived configuration globals of app/main.py. -/
structure Config where
  discord_enabled : Bool
  alert_distance_km : ℚ
  alert_scan_burst_min : ℤ
  alert_scan_burst_count : ℤ
  alert_night_start : ℤ
  alert_night_end : ℤ
  deriving DecidableEq, Repr

/-- The default configuration (no DISCORD_WEBHOOK_URL; ALERT_DISTANCE_KM
2.0, ALERT_SCAN_BURST_MIN 10, ALERT_SCAN_BURST_COUNT 4,
ALERT_NIGHT_START 22, ALERT_NIGHT_END 6). -/
def defaultConfig : Config :=
  { discord_enabled := false
    alert_distance_km := 2
    alert_scan_burst_min := 10
    alert_scan_burst_count := 4
    alert_night_start := 22
    alert_night_end := 6 }

/-- A row of the pets table (the columns the engine reads or writes).
`status` is NOT NULL; REAL columns are nullable rationals.  The last_*
cache fields can hold raw JSON values, since /api/scan stores the
request-body values unchecked. -/
structure Pet where
  id : String
  name : String
  status : String
  home_lat : Option ℚ
  home_lon : Option ℚ
  last_seen_utc : Option Timestamp
  last_lat : Option JVal
  last_lon : Option JVal
  last_accuracy : Option JVal
  deriving DecidableEq, Repr

/-- A row of the scans table.  `id` is the AUTOINCREMENT primary key. -/
structure Scan where
  id : ℕ
  pet_id : String
  ts_utc : Timestamp
  ip : String
  user_agent : String
  referrer : String
  lat : Option JVal
  lon : Option JVal
  accuracy : Option JVal
  deriving DecidableEq, Repr

/-- The SQLite database: the pets table, the scans table in insertion
order (ids ascending), and the next AUTOINCREMENT id. -/
structure DB where
  pets : List Pet
  scans : List Scan
  nextId : ℕ
  deriving DecidableEq, Repr

/-- SELECT * FROM pets WHERE id=? (first matching row or None). -/
def db_get_pet (db : DB) (pet_id : String) : Option Pet :=
  db.pets.find? (fun p => p.id == pet_id)

/-- INSERT INTO scans ... : appends one immutable event row. -/
def db_insert_scan (db : DB) (pet_id : String) (ts_utc : Timestamp)
    (ip ua ref : String) (lat lon acc : Option JVal) : DB :=
  { db with
    scans := db.scans ++
      [{ id := db.nextId, pet_id := pet_id, ts_utc := ts_utc, ip := ip
         user_agent := ua, referrer := ref, lat := lat, lon := lon
         accuracy := acc }]
    nextId := db.nextId + 1 }

/-- UPDATE pets SET last_seen_utc=?, last_lat=?, last_lon=?,
last_accuracy=? WHERE id=? : overwrites all four cache fields of every
row with the given id, with exactly the given values. -/
def db_update_last_seen (db : DB) (pet_id : String) (ts_utc : Timestamp)
    (lat lon acc : Option JVal) : DB :=
  { db with
    pets := db.pets.map (fun p =>
      if p.id == pet_id then
        { p with last_seen_utc := some ts_utc, last_lat := lat
                 last_lon := lon, last_accuracy := acc }
      else p) }

/-- SELECT COUNT(*) FROM scans WHERE pet_id=? AND ts_utc >= cutoff,
with cutoff = now - minutes (datetime.now at query time, modelled as
the request timestamp). -/
def db_scan_burst_count (db : DB) (now : ℤ) (pet_id : String)
    (minutes : ℤ) : ℕ :=
  (db.scans.filter (fun s =>
    s.pet_id == pet_id && decide (now - minutes ≤ s.ts_utc.utc))).length

/-- SELECT ts_utc, lat, lon, accuracy FROM scans WHERE pet_id=? AND lat
IS NOT NULL AND lon IS NOT NULL ORDER BY id DESC LIMIT clamp(limit),
with the limit clamped into [1, 200]. -/
def db_last_locations (db : DB) (pet_id : String) (limit : ℤ) : List Scan :=
  let lim : ℤ := max 1 (min 200 limit)
  ((db.scans.filter (fun s =>
    s.pet_id == pet_id && s.lat.isSome && s.lon.isSome)).reverse).take lim.toNat

/-- The inbound HTTP request context: the headers the engine reads (""
models an absent header, as both are falsy in the source) and the
transport-level peer (request.client). -/
structure Req where
  cf_connecting_ip : String
  true_client_ip : String
  x_forwarded_for : String
  x_real_ip : String
  client : Option String
  user_agent : String
  referer : String
  deriving DecidableEq, Repr

/-- Python str.strip(): the string without leading and trailing
whitespace (header values are ASCII, where Char.isWhitespace agrees
with the Python notion). -/
def pyStrip (s : String) : String :=
  String.mk
    (((s.toList.dropWhile Char.isWhitespace).reverse.dropWhile
      Char.isWhitespace).reverse)

/-- Python s.split(",")[0]: the characters before the first comma (the
whole string when it has no comma; empty when it starts with one). -/
def pySplitFirstComma (s : String) : String :=
  String.mk (s.toList.takeWhile (fun c => c ≠ ','))

/-- get_client_ip: Cloudflare header, true-client-ip, first entry of
x-forwarded-for, x-real-ip, then the peer address; each raw header is
tested for truthiness (non-emptiness) before its value is returned. -/
def get_client_ip (req : Req) : String :=
  if req.cf_connecting_ip ≠ "" then pyStrip req.cf_connecting_ip
  else if req.true_client_ip ≠ "" then pyStrip req.true_client_ip
  else if req.x_forwarded_for ≠ "" then
    pyStrip (pySplitFirstComma req.x_forwarded_for)
  else if req.x_real_ip ≠ "" then pyStrip req.x_real_ip
  else req.client.getD ""

/-- The header-priority chain as the specification words it, for
comparison with get_client_ip: the candidate values are the CDN
connecting-IP header, the true-client-IP header, the first entry of the
forwarded-for list, the real-IP header and the transport-level peer
address, and the first non-empty value in that order wins. -/
def client_ip_spec_chain (req : Req) : String :=
  ([pyStrip req.cf_connecting_ip,
    pyStrip req.true_client_ip,
    pyStrip (pySplitFirstComma req.x_forwarded_for),
    pyStrip req.x_real_ip,
    req.client.getD ""].find? (fun v => v ≠ "")).getD ""

/-- is_night: the configured night window applied to the local hour of
the timestamp (non-wrapping branch when start <= end, wrapping branch
otherwise). -/
def is_night (cfg : Config) (ts : Timestamp) : Bool :=
  if cfg.alert_night_start ≤ cfg.alert_night_end then
    decide (cfg.alert_night_start ≤ (ts.localHour : ℤ) ∧
            (ts.localHour : ℤ) < cfg.alert_night_end)
  else
    decide ((ts.localHour : ℤ) ≥ cfg.alert_night_start ∨
            (ts.localHour : ℤ) < cfg.alert_night_end)

/-- haversine_km: great-circle distance, R = 6371 km. -/
noncomputable def haversine_km (lat1 lon1 lat2 lon2 : ℚ) : ℝ :=
  let R : ℝ := 6371
  let p : ℝ := Real.pi / 180
  let dlat : ℝ := ((lat2 : ℝ) - (lat1 : ℝ)) * p
  let dlon : ℝ := ((lon2 : ℝ) - (lon1 : ℝ)) * p
  let a : ℝ := Real.sin (dlat / 2) ^ 2 +
    Real.cos ((lat1 : ℝ) * p) * Real.cos ((lat2 : ℝ) * p) *
      Real.sin (dlon / 2) ^ 2
  2 * R * Real.arcsin (Real.sqrt a)

/-- discord_notify: no-op when no webhook is configured; otherwise the
awaited httpx post raises on timeout / transport failure and ignores
the response status (no raise_for_status in the source). -/
def discord_notify (enabled : Bool) (sink : SinkBehavior) : Except PyErr Unit :=
  if enabled then
    match sink with
    | .delivered _ => .ok ()
    | .transportFail => .error .sinkError
  else .ok ()

/-- One alert reason appended to the alerts list of maybe_send_alerts. -/
inductive AlertReason where
  | night
  | burst
  | distance
  deriving DecidableEq, Repr

open Classical in
/-- The rule section of maybe_send_alerts (after the status gate): night
rule, burst rule, then the distance rule whose guard requires both event
coordinates present and both home coordinates present and nonzero, and
whose float() conversions of the event coordinates can raise. -/
noncomputable def evalAlerts (cfg : Config) (db : DB) (pet : Pet)
    (pet_id : String) (now : Timestamp) (lat lon : Option JVal) :
    Except PyErr (List AlertReason) :=
  let a1 : List AlertReason := if is_night cfg now then [.night] else []
  let burst : ℕ := db_scan_burst_count db now.utc pet_id cfg.alert_scan_burst_min
  let a2 : List AlertReason :=
    a1 ++ (if cfg.alert_scan_burst_count ≤ (burst : ℤ) then [.burst] else [])
  match lat, lon, pet.home_lat, pet.home_lon with
  | some la, some lo, some hla, some hlo =>
    if hla ≠ 0 ∧ hlo ≠ 0 then do
      let laq ← pyFloat la
      let loq ← pyFloat lo
      if (cfg.alert_distance_km : ℝ) ≤ haversine_km hla hlo laq loq then
        .ok (a2 ++ [.distance])
      else
        .ok a2
    else .ok a2
  | _, _, _, _ => .ok a2

/-- maybe_send_alerts: returns without doing anything unless pet.status
is exactly "lost"; otherwise evaluates the rules and, when at least one
fired, awaits discord_notify with the combined alert message.  The
result carries the fired reasons and whether a notification was
dispatched. -/
noncomputable def maybe_send_alerts (cfg : Config) (sink : SinkBehavior)
    (db : DB) (pet : Pet) (pet_id : String) (now : Timestamp) (_ip : String)
    (lat lon _acc : Option JVal) : Except PyErr (List AlertReason × Bool) :=
  if pet.status ≠ "lost" then .ok ([], false)
  else
    match evalAlerts cfg db pet pet_id now lat lon with
    | .error e => .error e
    | .ok alerts =>
      if alerts ≠ [] then
        match discord_notify cfg.discord_enabled sink with
        | .error e => .error e
        | .ok _ => .ok (alerts, true)
      else .ok (alerts, false)

/-- The alert list of an evaluator result: the reasons that fired on
normal return, none when the evaluation raised. -/
def okAlerts : Except PyErr (List AlertReason) → List AlertReason
  | .ok alerts => alerts
  | .error _ => []

/-- The HTTP responses the two embedded handlers can produce. -/
inductive Resp where
  /-- 404 pet_not_found. -/
  | petNotFound404
  /-- The JSON body with ok True from /api/scan. -/
  | okTrue
  /-- The rendered pet page. -/
  | petPage
  /-- The 301 redirect of the literal pet id Frida. -/
  | redirect301
  deriving DecidableEq, Repr

/-- GET /p/pet_id (pet_page): look the pet up (404 and no side effect
when absent), record a location-less scan, overwrite the last-seen
cache with nulls for the coordinates, send the informational
notification, render the page.  The first component is the response (or
the exception that escaped), the second the database after the call. -/
def pet_page (cfg : Config) (sink : SinkBehavior) (db : DB)
    (pet_id : String) (now : Timestamp) (req : Req) :
    Except PyErr Resp × DB :=
  match db_get_pet db pet_id with
  | none => (.ok .petNotFound404, db)
  | some _ =>
    if pet_id = "Frida" then (.ok .redirect301, db)
    else
      let ip := get_client_ip req
      let db1 := db_insert_scan db pet_id now ip req.user_agent req.referer
        none none none
      let db2 := db_update_last_seen db1 pet_id now none none none
      match discord_notify cfg.discord_enabled sink with
      | .error e => (.error e, db2)
      | .ok _ => (.ok .petPage, db2)

/-- POST /api/scan/pet_id (scan_geo): look the pet up (404 and no side
effect when absent), record the event with the raw request-body
coordinates, overwrite the last-seen cache with them, await the
informational notification, then run maybe_send_alerts on the updated
database.  The first component is the response (or the exception that
escaped), the second the database after the call. -/
noncomputable def scan_geo (cfg : Config) (sink : SinkBehavior) (db : DB)
    (pet_id : String) (now : Timestamp) (req : Req)
    (lat lon acc : Option JVal) : Except PyErr Resp × DB :=
  match db_get_pet db pet_id with
  | none => (.ok .petNotFound404, db)
  | some pet =>
    let ip := get_client_ip req
    let db1 := db_insert_scan db pet_id now ip req.user_agent "" lat lon acc
    let db2 := db_update_last_seen db1 pet_id now lat lon acc
    match discord_notify cfg.discord_enabled sink with
    | .error e => (.error e, db2)
    | .ok _ =>
      match maybe_send_alerts cfg sink db2 pet pet_id now ip lat lon acc with
      | .error e => (.error e, db2)
      | .ok _ => (.ok .okTrue, db2)

/-- C1: for every pet whose status is not "lost", maybe_send_alerts
produces no alert reasons and dispatches no alert notification,
regardless of the timestamp, the coordinates (even malformed ones), the
scan history and the sink behaviour: the status gate is checked before
any rule runs. -/
theorem C1_status_gate (cfg : Config) (sink : SinkBehavior) (db : DB)
    (pet : Pet) (pet_id : String) (now : Timestamp) (ip : String)
    (lat lon acc : Option JVal) (h : pet.status ≠ "lost") :
    maybe_send_alerts cfg sink db pet pet_id now ip lat lon acc =
      .ok ([], false) := by
  unfold maybe_send_alerts
  rw [if_pos h]

/-- C1 witness: a pet marked home, with a malformed coordinate payload
that would crash the distance rule and a failing sink, still yields no
reasons and no dispatch. -/
theorem C1_status_gate_witness :
    (Pet.status ⟨"rocky", "Rocky", "home", some 1, some 1, none, none,
        none, none⟩ ≠ "lost") ∧
    maybe_send_alerts ⟨true, 2, 10, 4, 22, 6⟩ .transportFail ⟨[], [], 0⟩
      ⟨"rocky", "Rocky", "home", some 1, some 1, none, none, none, none⟩
      "rocky" ⟨0, 23⟩ "1.2.3.4" (some .malformed) (some .malformed) none =
      .ok ([], false) :=
  ⟨by decide,
   C1_status_gate ⟨true, 2, 10, 4, 22, 6⟩ .transportFail ⟨[], [], 0⟩
     ⟨"rocky", "Rocky", "home", some 1, some 1, none, none, none, none⟩
     "rocky" ⟨0, 23⟩ "1.2.3.4" (some .malformed) (some .malformed) none
     (by decide)⟩

/-- C5: a scan (pet_page) or location (scan_geo) call naming an unknown
pet id yields the 404 pet_not_found response and leaves the database
untouched: no event row is inserted and no last-seen field changes. -/
theorem C5_missing_pet (cfg : Config) (sink : SinkBehavior) (db : DB)
    (pet_id : String) (now : Timestamp) (req : Req)
    (lat lon acc : Option JVal) (h : db_get_pet db pet_id = none) :
    pet_page cfg sink db pet_id now req = (.ok .petNotFound404, db) ∧
    scan_geo cfg sink db pet_id now req lat lon acc =
      (.ok .petNotFound404, db) := by
  constructor
  · unfold pet_page
    rw [h]
  · unfold scan_geo
    rw [h]

/-- C5 witness: on a database holding only the pet rocky, both calls
for the id ghost return 404 and return the database unchanged. -/
theorem C5_missing_pet_witness :
    (db_get_pet ⟨[⟨"rocky", "Rocky", "lost", none, none, none, none, none,
        none⟩], [], 0⟩ "ghost" = none) ∧
    pet_page defaultConfig (.delivered 200)
      ⟨[⟨"rocky", "Rocky", "lost", none, none, none, none, none, none⟩],
        [], 0⟩ "ghost" ⟨0, 12⟩ ⟨"", "", "", "", none, "ua", ""⟩ =
      (.ok .petNotFound404,
        ⟨[⟨"rocky", "Rocky", "lost", none, none, none, none, none, none⟩],
          [], 0⟩) ∧
    scan_geo defaultConfig (.delivered 200)
      ⟨[⟨"rocky", "Rocky", "lost", none, none, none, none, none, none⟩],
        [], 0⟩ "ghost" ⟨0, 12⟩ ⟨"", "", "", "", none, "ua", ""⟩
      none none none =
      (.ok .petNotFound404,
        ⟨[⟨"rocky", "Rocky", "lost", none, none, none, none, none, none⟩],
          [], 0⟩) := by
  refine ⟨by decide, ?_, ?_⟩
  · exact (C5_missing_pet defaultConfig (.delivered 200) _ "ghost" ⟨0, 12⟩
      ⟨"", "", "", "", none, "ua", ""⟩ none none none (by decide)).1
  · exact (C5_missing_pet defaultConfig (.delivered 200) _ "ghost" ⟨0, 12⟩
      ⟨"", "", "", "", none, "ua", ""⟩ none none none (by decide)).2

/-- C8: is_night applies the configured window to the local hour of the
converted timestamp: when start is at most end the window is the
half-open interval from start to end, otherwise it wraps midnight and
holds exactly when the hour is at least start or below end. -/
theorem C8_night_window (cfg : Config) (ts : Timestamp) :
    (cfg.alert_night_start ≤ cfg.alert_night_end →
      (is_night cfg ts = true ↔
        cfg.alert_night_start ≤ (ts.localHour : ℤ) ∧
          (ts.localHour : ℤ) < cfg.alert_night_end)) ∧
    (cfg.alert_night_end < cfg.alert_night_start →
      (is_night cfg ts = true ↔
        cfg.alert_night_start ≤ (ts.localHour : ℤ) ∨
          (ts.localHour : ℤ) < cfg.alert_night_end)) := by
  constructor
  · intro h
    unfold is_night
    rw [if_pos h]
    simp
  · intro h
    unfold is_night
    rw [if_neg (not_le.mpr h)]
    simp [ge_iff_le]

/-- C8 witness: with the wrapping default window 22 to 6, hour 23 is
night and hour 12 is not; with a non-wrapping window 6 to 22, hour 3 is
outside the window. -/
theorem C8_night_window_witness :
    (is_night ⟨false, 2, 10, 4, 22, 6⟩ ⟨0, 23⟩ = true ↔
      (22 : ℤ) ≤ ((23 : ℕ) : ℤ) ∨ ((23 : ℕ) : ℤ) < 6) ∧
    (is_night ⟨false, 2, 10, 4, 22, 6⟩ ⟨0, 12⟩ = true ↔
      (22 : ℤ) ≤ ((12 : ℕ) : ℤ) ∨ ((12 : ℕ) : ℤ) < 6) ∧
    (is_night ⟨false, 2, 10, 4, 6, 22⟩ ⟨0, 3⟩ = true ↔
      (6 : ℤ) ≤ ((3 : ℕ) : ℤ) ∧ ((3 : ℕ) : ℤ) < 22) :=
  ⟨(C8_night_window ⟨false, 2, 10, 4, 22, 6⟩ ⟨0, 23⟩).2 (by decide),
   (C8_night_window ⟨false, 2, 10, 4, 22, 6⟩ ⟨0, 12⟩).2 (by decide),
   (C8_night_window ⟨false, 2, 10, 4, 6, 22⟩ ⟨0, 3⟩).1 (by decide)⟩

/-- C9 counterexample: with an empty CDN header, an empty true-client-ip
header, a forwarded-for list whose first entry is empty and a non-empty
real-IP header, the first non-empty value of the chain described by the
specification is the real-IP value, but get_client_ip returns the empty
first forwarded-for entry: the code gates on the raw forwarded-for
header, not on its first entry. -/
theorem C9_counterexample :
    get_client_ip ⟨"", "", ",9.9.9.9", "7.7.7.7", some "10.0.0.1", "ua", ""⟩
        = "" ∧
    client_ip_spec_chain
        ⟨"", "", ",9.9.9.9", "7.7.7.7", some "10.0.0.1", "ua", ""⟩
        = "7.7.7.7" ∧
    get_client_ip ⟨"", "", ",9.9.9.9", "7.7.7.7", some "10.0.0.1", "ua", ""⟩
        ≠ client_ip_spec_chain
        ⟨"", "", ",9.9.9.9", "7.7.7.7", some "10.0.0.1", "ua", ""⟩ := by
  refine ⟨by decide, by decide, by decide⟩

/-- C9 amended: the resolution chain tests each raw header for
non-emptiness in the order CDN connecting-IP, true-client-IP,
forwarded-for, real-IP, and returns the stripped value of the first
non-empty header (for forwarded-for, its stripped first comma-separated
entry, which may itself be empty), falling back to the transport-level
peer address when all four headers are empty. -/
theorem C9_header_chain (req : Req) :
    (req.cf_connecting_ip ≠ "" →
      get_client_ip req = pyStrip req.cf_connecting_ip) ∧
    (req.cf_connecting_ip = "" → req.true_client_ip ≠ "" →
      get_client_ip req = pyStrip req.true_client_ip) ∧
    (req.cf_connecting_ip = "" → req.true_client_ip = "" →
      req.x_forwarded_for ≠ "" →
      get_client_ip req = pyStrip (pySplitFirstComma req.x_forwarded_for)) ∧
    (req.cf_connecting_ip = "" → req.true_client_ip = "" →
      req.x_forwarded_for = "" → req.x_real_ip ≠ "" →
      get_client_ip req = pyStrip req.x_real_ip) ∧
    (req.cf_connecting_ip = "" → req.true_client_ip = "" →
      req.x_forwarded_for = "" → req.x_real_ip = "" →
      get_client_ip req = req.client.getD "") := by
  unfold get_client_ip
  refine ⟨fun h1 => by simp [h1], fun h1 h2 => by simp [h1, h2],
    fun h1 h2 h3 => by simp [h1, h2, h3],
    fun h1 h2 h3 h4 => by simp [h1, h2, h3, h4],
    fun h1 h2 h3 h4 => by simp [h1, h2, h3, h4]⟩

/-- C9 witness: the priority facts applied to concrete requests, giving
the stripped first forwarded-for entry and the peer fallback. -/
theorem C9_header_chain_witness :
    get_client_ip ⟨"", "", "1.1.1.1, 2.2.2.2", "", none, "ua", ""⟩ =
      pyStrip (pySplitFirstComma "1.1.1.1, 2.2.2.2") ∧
    get_client_ip ⟨"", "", "", "", some "10.0.0.7", "ua", ""⟩ =
      Option.getD (some "10.0.0.7") "" :=
  ⟨(C9_header_chain ⟨"", "", "1.1.1.1, 2.2.2.2", "", none, "ua", ""⟩).2.2.1
      rfl rfl (by decide),
   (C9_header_chain ⟨"", "", "", "", some "10.0.0.7", "ua", ""⟩).2.2.2.2
      rfl rfl rfl rfl⟩

/-- C10: on a database whose event log is in insertion order,
db_last_locations returns only rows of the requested pet whose latitude
and longitude are both non-null, in most-recent-first order of the
insertion id, and returns at most the requested limit clamped into the
interval from 1 to 200. -/
theorem C10_locations_query (db : DB) (pet_id : String) (limit : ℤ)
    (hsorted : db.scans.Pairwise (fun a b => a.id < b.id)) :
    (∀ s ∈ db_last_locations db pet_id limit,
        s.pet_id = pet_id ∧ s.lat ≠ none ∧ s.lon ≠ none) ∧
    (db_last_locations db pet_id limit).length ≤
      (max 1 (min 200 limit)).toNat ∧
    (db_last_locations db pet_id limit).Pairwise
      (fun a b => b.id < a.id) := by
  unfold db_last_locations
  refine ⟨?_, ?_, ?_⟩
  · intro s hs
    have hs1 : s ∈ (db.scans.filter (fun s =>
        s.pet_id == pet_id && s.lat.isSome && s.lon.isSome)).reverse :=
      List.mem_of_mem_take hs
    rw [List.mem_reverse, List.mem_filter] at hs1
    have hp := hs1.2
    simp only [Bool.and_eq_true, beq_iff_eq, Option.isSome_iff_ne_none] at hp
    exact ⟨hp.1.1, hp.1.2, hp.2⟩
  · rw [List.length_take]
    exact min_le_left _ _
  · have hf : (db.scans.filter (fun s =>
        s.pet_id == pet_id && s.lat.isSome && s.lon.isSome)).Pairwise
        (fun a b => a.id < b.id) :=
      hsorted.sublist (List.filter_sublist _)
    have hr : (db.scans.filter (fun s =>
        s.pet_id == pet_id && s.lat.isSome && s.lon.isSome)).reverse.Pairwise
        (fun a b => b.id < a.id) := List.pairwise_reverse.mpr hf
    exact hr.sublist (List.take_sublist _ _)

/-- C10 witness: a concrete log with one location-less scan between two
located ones: the query returns the located rows newest first. -/
theorem C10_locations_query_witness :
    (List.Pairwise (fun (a : Scan) (b : Scan) => a.id < b.id)
      (DB.scans ⟨[],
        [⟨0, "p", ⟨1, 1⟩, "", "", "", some (.num 1), some (.num 2), none⟩,
         ⟨1, "p", ⟨2, 2⟩, "", "", "", none, none, none⟩,
         ⟨2, "p", ⟨3, 3⟩, "", "", "", some (.num 3), some (.num 4), none⟩],
        3⟩)) ∧
    (∀ s ∈ db_last_locations ⟨[],
        [⟨0, "p", ⟨1, 1⟩, "", "", "", some (.num 1), some (.num 2), none⟩,
         ⟨1, "p", ⟨2, 2⟩, "", "", "", none, none, none⟩,
         ⟨2, "p", ⟨3, 3⟩, "", "", "", some (.num 3), some (.num 4), none⟩],
        3⟩ "p" 25,
        s.pet_id = "p" ∧ s.lat ≠ none ∧ s.lon ≠ none) ∧
    (db_last_locations ⟨[],
        [⟨0, "p", ⟨1, 1⟩, "", "", "", some (.num 1), some (.num 2), none⟩,
         ⟨1, "p", ⟨2, 2⟩, "", "", "", none, none, none⟩,
         ⟨2, "p", ⟨3, 3⟩, "", "", "", some (.num 3), some (.num 4), none⟩],
        3⟩ "p" 25).length ≤ (max 1 (min 200 (25 : ℤ))).toNat ∧
    (db_last_locations ⟨[],
        [⟨0, "p", ⟨1, 1⟩, "", "", "", some (.num 1), some (.num 2), none⟩,
         ⟨1, "p", ⟨2, 2⟩, "", "", "", none, none, none⟩,
         ⟨2, "p", ⟨3, 3⟩, "", "", "", some (.num 3), some (.num 4), none⟩],
        3⟩ "p" 25).Pairwise (fun a b => b.id < a.id) :=
  ⟨by decide,
   C10_locations_query ⟨[],
      [⟨0, "p", ⟨1, 1⟩, "", "", "", some (.num 1), some (.num 2), none⟩,
       ⟨1, "p", ⟨2, 2⟩, "", "", "", none, none, none⟩,
       ⟨2, "p", ⟨3, 3⟩, "", "", "", some (.num 3), some (.num 4), none⟩],
      3⟩ "p" 25 (by decide)⟩

/-- Looking a pet up after db_update_last_seen yields the found row with
all four last-seen cache fields overwritten by the given values. -/
theorem db_get_pet_after_update (db : DB) (pet_id : String)
    (ts : Timestamp) (lat lon acc : Option JVal) (pet : Pet)
    (h : db_get_pet db pet_id = some pet) :
    db_get_pet (db_update_last_seen db pet_id ts lat lon acc) pet_id =
      some { pet with last_seen_utc := some ts, last_lat := lat,
                      last_lon := lon, last_accuracy := acc } := by
  unfold db_get_pet db_update_last_seen
  unfold db_get_pet at h
  rw [List.find?_map]
  have hcomp : ((fun p : Pet => p.id == pet_id) ∘ (fun p : Pet =>
      if p.id == pet_id then
        { p with last_seen_utc := some ts, last_lat := lat,
                 last_lon := lon, last_accuracy := acc }
      else p)) = (fun p : Pet => p.id == pet_id) := by
    funext p
    by_cases hp : p.id = pet_id <;> simp [Function.comp, hp]
  rw [hcomp, h]
  have hid := List.find?_some h
  simp only [beq_iff_eq] at hid
  simp [hid]

/-- C2 counterexample: a pet stored with a known last-seen location
loses it on a location-less page view: pet_page overwrites last_lat and
last_lon with nulls while updating the timestamp. -/
theorem C2_counterexample :
    (db_get_pet ⟨[⟨"rocky", "Rocky", "lost", some 1, some 1, some ⟨0, 12⟩,
        some (.num 5), some (.num 6), some (.num 7)⟩], [], 0⟩
        "rocky").map Pet.last_lat = some (some (.num 5)) ∧
    (db_get_pet (pet_page defaultConfig (.delivered 200)
        ⟨[⟨"rocky", "Rocky", "lost", some 1, some 1, some ⟨0, 12⟩,
          some (.num 5), some (.num 6), some (.num 7)⟩], [], 0⟩
        "rocky" ⟨100, 12⟩ ⟨"", "", "", "", none, "ua", ""⟩).2
        "rocky").map Pet.last_lat = some none ∧
    (db_get_pet (pet_page defaultConfig (.delivered 200)
        ⟨[⟨"rocky", "Rocky", "lost", some 1, some 1, some ⟨0, 12⟩,
          some (.num 5), some (.num 6), some (.num 7)⟩], [], 0⟩
        "rocky" ⟨100, 12⟩ ⟨"", "", "", "", none, "ua", ""⟩).2
        "rocky").map Pet.last_lon = some none := by
  refine ⟨by decide, by decide, by decide⟩

/-- C2 amended: a location-less page view on an existing pet (other
than the redirected literal id Frida) updates the last_seen timestamp
and overwrites last_lat, last_lon and last_accuracy with nulls,
clobbering any previously recorded last-seen location. -/
theorem C2_pageview_nulls_location (cfg : Config) (sink : SinkBehavior)
    (db : DB) (pet_id : String) (now : Timestamp) (req : Req) (pet : Pet)
    (hpet : db_get_pet db pet_id = some pet) (hfrida : pet_id ≠ "Frida") :
    db_get_pet (pet_page cfg sink db pet_id now req).2 pet_id =
      some { pet with last_seen_utc := some now, last_lat := none,
                      last_lon := none, last_accuracy := none } := by
  unfold pet_page
  rw [hpet, if_neg hfrida]
  have hpet1 : db_get_pet (db_insert_scan db pet_id now (get_client_ip req)
      req.user_agent req.referer none none none) pet_id = some pet := hpet
  have hupd := db_get_pet_after_update _ pet_id now none none none pet hpet1
  cases hd : discord_notify cfg.discord_enabled sink with
  | error e => simpa using hupd
  | ok u => simpa using hupd

/-- C2 amended witness: the concrete pet keeps its identity fields but
its stored coordinates are replaced by nulls after the page view. -/
theorem C2_pageview_nulls_location_witness :
    db_get_pet (pet_page defaultConfig (.delivered 200)
        ⟨[⟨"luna", "Luna", "lost", some 1, some 1, some ⟨0, 12⟩,
          some (.num 5), some (.num 6), some (.num 7)⟩], [], 0⟩
        "luna" ⟨100, 12⟩ ⟨"", "", "", "", none, "ua", ""⟩).2 "luna" =
      some ⟨"luna", "Luna", "lost", some 1, some 1, some ⟨100, 12⟩,
        none, none, none⟩ :=
  C2_pageview_nulls_location defaultConfig (.delivered 200)
    ⟨[⟨"luna", "Luna", "lost", some 1, some 1, some ⟨0, 12⟩,
      some (.num 5), some (.num 6), some (.num 7)⟩], [], 0⟩
    "luna" ⟨100, 12⟩ ⟨"", "", "", "", none, "ua", ""⟩
    ⟨"luna", "Luna", "lost", some 1, some 1, some ⟨0, 12⟩,
      some (.num 5), some (.num 6), some (.num 7)⟩
    (by decide) (by decide)

/-- Inserting the triggering event and then counting the burst window
counts the prior in-window events plus the triggering event itself,
whenever the configured window is nonnegative. -/
theorem burst_count_after_insert (db : DB) (pet_id : String)
    (now : Timestamp) (ip ua ref : String) (lat lon acc : Option JVal)
    (m : ℤ) (hm : 0 ≤ m) :
    db_scan_burst_count (db_insert_scan db pet_id now ip ua ref lat lon acc)
        now.utc pet_id m =
      db_scan_burst_count db now.utc pet_id m + 1 := by
  unfold db_scan_burst_count db_insert_scan
  rw [List.filter_append, List.length_append]
  have hnew : now.utc - m ≤ now.utc := sub_le_self now.utc hm
  have hnew2 : now.utc ≤ now.utc + m := le_add_of_nonneg_right hm
  simp [hnew, hnew2]

/-- C6: on the location-report path the event is inserted before the
evaluator runs, so the burst rule fires exactly when the number of
events of the pet inside the trailing window, the triggering event
included, reaches the configured threshold (the night rule is
unaffected and the distance rule is disabled by the absent
coordinates). -/
theorem C6_burst_threshold (cfg : Config) (db : DB) (pet : Pet)
    (pet_id : String) (now : Timestamp) (ip ua : String)
    (hm : 0 ≤ cfg.alert_scan_burst_min) :
    evalAlerts cfg (db_insert_scan db pet_id now ip ua "" none none none)
        pet pet_id now none none =
      .ok ((if is_night cfg now then [.night] else []) ++
        (if cfg.alert_scan_burst_count ≤
            (db_scan_burst_count db now.utc pet_id cfg.alert_scan_burst_min
              : ℤ) + 1
          then [.burst] else [])) := by
  have hcount := burst_count_after_insert db pet_id now ip ua "" none none
    none cfg.alert_scan_burst_min hm
  simp only [evalAlerts, hcount]
  norm_cast

/-- C6 witness: with the default threshold 4 and window 10 minutes,
three prior scans inside the window (an older one falls outside) plus
the triggering event fire the burst rule, while two prior scans plus
the trigger do not. -/
theorem C6_burst_threshold_witness :
    (0 ≤ Config.alert_scan_burst_min ⟨false, 2, 10, 4, 22, 6⟩) ∧
    evalAlerts ⟨false, 2, 10, 4, 22, 6⟩
      (db_insert_scan ⟨[],
        [⟨0, "p", ⟨50, 12⟩, "", "", "", none, none, none⟩,
         ⟨1, "p", ⟨95, 12⟩, "", "", "", none, none, none⟩,
         ⟨2, "p", ⟨96, 12⟩, "", "", "", none, none, none⟩,
         ⟨3, "p", ⟨97, 12⟩, "", "", "", none, none, none⟩], 4⟩
        "p" ⟨100, 12⟩ "ip" "ua" "" none none none)
      ⟨"p", "P", "lost", none, none, none, none, none, none⟩
      "p" ⟨100, 12⟩ none none = .ok [.burst] ∧
    evalAlerts ⟨false, 2, 10, 4, 22, 6⟩
      (db_insert_scan ⟨[],
        [⟨0, "p", ⟨50, 12⟩, "", "", "", none, none, none⟩,
         ⟨1, "p", ⟨95, 12⟩, "", "", "", none, none, none⟩,
         ⟨2, "p", ⟨96, 12⟩, "", "", "", none, none, none⟩], 3⟩
        "p" ⟨100, 12⟩ "ip" "ua" "" none none none)
      ⟨"p", "P", "lost", none, none, none, none, none, none⟩
      "p" ⟨100, 12⟩ none none = .ok [] := by
  refine ⟨by decide, ?_, ?_⟩
  · rw [C6_burst_threshold ⟨false, 2, 10, 4, 22, 6⟩ ⟨[],
      [⟨0, "p", ⟨50, 12⟩, "", "", "", none, none, none⟩,
       ⟨1, "p", ⟨95, 12⟩, "", "", "", none, none, none⟩,
       ⟨2, "p", ⟨96, 12⟩, "", "", "", none, none, none⟩,
       ⟨3, "p", ⟨97, 12⟩, "", "", "", none, none, none⟩], 4⟩
      ⟨"p", "P", "lost", none, none, none, none, none, none⟩
      "p" ⟨100, 12⟩ "ip" "ua" (by decide)]
    simp only [Except.ok.injEq]
    decide
  · rw [C6_burst_threshold ⟨false, 2, 10, 4, 22, 6⟩ ⟨[],
      [⟨0, "p", ⟨50, 12⟩, "", "", "", none, none, none⟩,
       ⟨1, "p", ⟨95, 12⟩, "", "", "", none, none, none⟩,
       ⟨2, "p", ⟨96, 12⟩, "", "", "", none, none, none⟩], 3⟩
      ⟨"p", "P", "lost", none, none, none, none, none, none⟩
      "p" ⟨100, 12⟩ "ip" "ua" (by decide)]
    simp only [Except.ok.injEq]
    decide

/-- The distance reason is in the evaluator output exactly when both
event coordinates are present and numeric, both home coordinates are
present and nonzero, and the haversine distance reaches the threshold. -/
theorem distance_fires_iff (cfg : Config) (db : DB) (pet : Pet)
    (pet_id : String) (now : Timestamp) (lat lon : Option JVal) :
    AlertReason.distance ∈ okAlerts (evalAlerts cfg db pet pet_id now lat lon)
      ↔ (∃ la lo hla hlo,
          lat = some (JVal.num la) ∧ lon = some (JVal.num lo) ∧
          pet.home_lat = some hla ∧ pet.home_lon = some hlo ∧
          hla ≠ 0 ∧ hlo ≠ 0 ∧
          (cfg.alert_distance_km : ℝ) ≤ haversine_km hla hlo la lo) := by
  have hbase : AlertReason.distance ∉
      ((if is_night cfg now then [AlertReason.night] else []) ++
        (if cfg.alert_scan_burst_count ≤
            (db_scan_burst_count db now.utc pet_id cfg.alert_scan_burst_min : ℤ)
          then [AlertReason.burst] else [])) := by
    simp only [List.mem_append]
    rintro (h | h) <;> revert h <;> split <;> simp
  rcases hlat : lat with _ | la
  · simp [evalAlerts, okAlerts, hbase]
  rcases hlon : lon with _ | lo
  · simp [evalAlerts, okAlerts, hbase]
  rcases hhla : pet.home_lat with _ | hla
  · simp [evalAlerts, okAlerts, hbase, hhla]
  rcases hhlo : pet.home_lon with _ | hlo
  · simp [evalAlerts, okAlerts, hbase, hhla, hhlo]
  by_cases hz : hla ≠ 0 ∧ hlo ≠ 0
  · rcases la with laq | _
    · rcases lo with loq | _
      · by_cases hd : (cfg.alert_distance_km : ℝ) ≤ haversine_km hla hlo laq loq
        · simp only [evalAlerts, hhla, hhlo, if_pos hz]
          simp [okAlerts, pyFloat, Bind.bind, Except.bind, hz.1, hz.2, hd]
        · simp only [evalAlerts, hhla, hhlo, if_pos hz]
          simp [okAlerts, pyFloat, Bind.bind, Except.bind, hbase, hd]
      · simp only [evalAlerts, hhla, hhlo, if_pos hz]
        simp [okAlerts, pyFloat, Bind.bind, Except.bind]
    · simp only [evalAlerts, hhla, hhlo, if_pos hz]
      simp [okAlerts, pyFloat, Bind.bind, Except.bind]
  · rw [not_and_or, not_not, not_not] at hz
    simp only [evalAlerts, hhla, hhlo]
    rcases hz with hz | hz <;>
      simp [okAlerts, hz, hbase]

/-- C7: the distance rule fires only when the event carries numeric
coordinates and the pet has a usable home location (a home coordinate
that is missing or exactly zero disables the rule), and in that case it
fires exactly when the haversine great-circle distance (Earth radius
6371 km) from home to the event reaches the configured threshold. -/
theorem C7_distance_rule (cfg : Config) (db : DB) (pet : Pet)
    (pet_id : String) (now : Timestamp) (lat lon : Option JVal) :
    (AlertReason.distance ∈ okAlerts (evalAlerts cfg db pet pet_id now lat lon) →
      (∃ la, lat = some (JVal.num la)) ∧ (∃ lo, lon = some (JVal.num lo)) ∧
      (∃ hla, pet.home_lat = some hla ∧ hla ≠ 0) ∧
      (∃ hlo, pet.home_lon = some hlo ∧ hlo ≠ 0)) ∧
    (∀ la lo hla hlo,
      lat = some (JVal.num la) → lon = some (JVal.num lo) →
      pet.home_lat = some hla → pet.home_lon = some hlo →
      hla ≠ 0 → hlo ≠ 0 →
      (AlertReason.distance ∈ okAlerts (evalAlerts cfg db pet pet_id now lat lon)
        ↔ (cfg.alert_distance_km : ℝ) ≤ haversine_km hla hlo la lo)) := by
  constructor
  · intro hmem
    obtain ⟨la, lo, hla, hlo, h1, h2, h3, h4, h5, h6, _⟩ :=
      (distance_fires_iff cfg db pet pet_id now lat lon).mp hmem
    exact ⟨⟨la, h1⟩, ⟨lo, h2⟩, ⟨hla, h3, h5⟩, ⟨hlo, h4, h6⟩⟩
  · intro la lo hla hlo h1 h2 h3 h4 h5 h6
    rw [distance_fires_iff]
    constructor
    · rintro ⟨la2, lo2, hla2, hlo2, g1, g2, g3, g4, g5, g6, g7⟩
      simp only [h1, Option.some.injEq, JVal.num.injEq] at g1
      simp only [h2, Option.some.injEq, JVal.num.injEq] at g2
      simp only [h3, Option.some.injEq] at g3
      simp only [h4, Option.some.injEq] at g4
      rw [g1, g2, g3, g4]
      exact g7
    · intro hdist
      exact ⟨la, lo, hla, hlo, h1, h2, h3, h4, h5, h6, hdist⟩

/-- C7 witness: for a lost pet with home coordinates 3 and 4 and a
numeric event location, the distance reason fires exactly when the
haversine distance reaches the threshold of 2 km. -/
theorem C7_distance_rule_witness :
    AlertReason.distance ∈ okAlerts (evalAlerts ⟨false, 2, 10, 4, 22, 6⟩
        ⟨[], [], 0⟩ ⟨"p", "P", "lost", some 3, some 4, none, none, none, none⟩
        "p" ⟨0, 12⟩ (some (.num 1)) (some (.num 1)))
      ↔ ((2 : ℚ) : ℝ) ≤ haversine_km 3 4 1 1 :=
  (C7_distance_rule ⟨false, 2, 10, 4, 22, 6⟩ ⟨[], [], 0⟩
    ⟨"p", "P", "lost", some 3, some 4, none, none, none, none⟩
    "p" ⟨0, 12⟩ (some (.num 1)) (some (.num 1))).2 1 1 3 4 rfl rfl rfl rfl
    (by decide) (by decide)

/-- The rule evaluation itself can only raise ValueError (from float on
a malformed coordinate), never a sink error. -/
theorem evalAlerts_ne_sink_error (cfg : Config) (db : DB) (pet : Pet)
    (pet_id : String) (now : Timestamp) (lat lon : Option JVal) :
    evalAlerts cfg db pet pet_id now lat lon ≠ .error .sinkError := by
  rcases lat with _ | la
  · simp [evalAlerts]
  rcases lon with _ | lo
  · simp [evalAlerts]
  cases hhla : pet.home_lat with
  | none => simp [evalAlerts, hhla]
  | some hla =>
  cases hhlo : pet.home_lon with
  | none => simp [evalAlerts, hhla, hhlo]
  | some hlo =>
  by_cases hz : hla ≠ 0 ∧ hlo ≠ 0
  · rcases la with q | _
    · rcases lo with r | _
      · by_cases hd : (cfg.alert_distance_km : ℝ) ≤ haversine_km hla hlo q r
        · simp [evalAlerts, hhla, hhlo, hz, pyFloat, Bind.bind, Except.bind, hd]
        · simp [evalAlerts, hhla, hhlo, hz, pyFloat, Bind.bind, Except.bind, hd]
      · simp [evalAlerts, hhla, hhlo, hz, pyFloat, Bind.bind, Except.bind]
    · simp [evalAlerts, hhla, hhlo, hz, pyFloat, Bind.bind, Except.bind]
  · simp [evalAlerts, hhla, hhlo, hz]

/-- When the webhook call itself returns normally, maybe_send_alerts
can only raise ValueError, never a sink error. -/
theorem maybe_send_alerts_ne_sink_error (cfg : Config) (sink : SinkBehavior)
    (db : DB) (pet : Pet) (pet_id : String) (now : Timestamp) (ip : String)
    (lat lon acc : Option JVal)
    (hok : discord_notify cfg.discord_enabled sink = .ok ()) :
    maybe_send_alerts cfg sink db pet pet_id now ip lat lon acc ≠
      .error .sinkError := by
  unfold maybe_send_alerts
  by_cases hst : pet.status ≠ "lost"
  · simp [hst]
  · rw [if_neg hst]
    cases he : evalAlerts cfg db pet pet_id now lat lon with
    | error e =>
      cases e
      · simp
      · exact absurd he (evalAlerts_ne_sink_error cfg db pet pet_id now lat lon)
    | ok alerts =>
      by_cases ha : alerts ≠ []
      · simp [ha, hok]
      · simp [ha]

/-- C3 counterexample: with a configured webhook whose post raises (a
timeout or transport failure), the informational notification awaited
inside the location handler propagates the exception: the sink failure
is surfaced to the HTTP caller as a failed response, refuting the
fire-and-forget claim. -/
theorem C3_counterexample :
    (scan_geo ⟨true, 2, 10, 4, 22, 6⟩ .transportFail
      ⟨[⟨"p", "P", "home", none, none, none, none, none, none⟩], [], 0⟩
      "p" ⟨0, 12⟩ ⟨"", "", "", "", none, "ua", ""⟩ none none none).1 =
      .error .sinkError := rfl

/-- C3 amended: a delivered webhook post with any response status (2xx
or not) is never surfaced to the HTTP caller, and with no sink
configured dispatch is a no-op, so neither handler can fail with a sink
error; but a timeout or transport failure of the awaited post does
escape (see the counterexample). -/
theorem C3_sink_nonfatal (cfg : Config) (sink : SinkBehavior) (db : DB)
    (pet_id : String) (now : Timestamp) (req : Req)
    (lat lon acc : Option JVal)
    (h : (∃ s, sink = .delivered s) ∨ cfg.discord_enabled = false) :
    (scan_geo cfg sink db pet_id now req lat lon acc).1 ≠
      .error .sinkError ∧
    (pet_page cfg sink db pet_id now req).1 ≠ .error .sinkError := by
  have hok : discord_notify cfg.discord_enabled sink = .ok () := by
    rcases h with ⟨s, rfl⟩ | h
    · unfold discord_notify
      cases cfg.discord_enabled <;> simp
    · simp [discord_notify, h]
  constructor
  · unfold scan_geo
    cases hpet : db_get_pet db pet_id with
    | none => simp
    | some pet =>
      simp only [hok]
      cases hm : maybe_send_alerts cfg sink
          (db_update_last_seen (db_insert_scan db pet_id now
            (get_client_ip req) req.user_agent "" lat lon acc)
            pet_id now lat lon acc) pet pet_id now
          (get_client_ip req) lat lon acc with
      | error e =>
        cases e
        · simp
        · exact absurd hm (maybe_send_alerts_ne_sink_error cfg sink _ pet
            pet_id now _ lat lon acc hok)
      | ok r => simp
  · unfold pet_page
    cases hpet : db_get_pet db pet_id with
    | none => simp
    | some pet =>
      by_cases hf : pet_id = "Frida"
      · simp [hf]
      · rw [if_neg hf]
        simp only [hok]
        simp

/-- C3 amended witness: a non-2xx delivery (status 500) on a configured
sink fails neither handler with a sink error. -/
theorem C3_sink_nonfatal_witness :
    ((∃ s, SinkBehavior.delivered 500 = SinkBehavior.delivered s) ∨
      Config.discord_enabled ⟨true, 2, 10, 4, 22, 6⟩ = false) ∧
    (scan_geo ⟨true, 2, 10, 4, 22, 6⟩ (.delivered 500)
      ⟨[⟨"p", "P", "lost", none, none, none, none, none, none⟩], [], 0⟩
      "p" ⟨0, 12⟩ ⟨"", "", "", "", none, "ua", ""⟩ none none none).1 ≠
      .error .sinkError ∧
    (pet_page ⟨true, 2, 10, 4, 22, 6⟩ (.delivered 500)
      ⟨[⟨"p", "P", "lost", none, none, none, none, none, none⟩], [], 0⟩
      "p" ⟨0, 12⟩ ⟨"", "", "", "", none, "ua", ""⟩).1 ≠
      .error .sinkError :=
  ⟨Or.inl ⟨500, rfl⟩,
   (C3_sink_nonfatal ⟨true, 2, 10, 4, 22, 6⟩ (.delivered 500)
     ⟨[⟨"p", "P", "lost", none, none, none, none, none, none⟩], [], 0⟩
     "p" ⟨0, 12⟩ ⟨"", "", "", "", none, "ua", ""⟩ none none none
     (Or.inl ⟨500, rfl⟩)).1,
   (C3_sink_nonfatal ⟨true, 2, 10, 4, 22, 6⟩ (.delivered 500)
     ⟨[⟨"p", "P", "lost", none, none, none, none, none, none⟩], [], 0⟩
     "p" ⟨0, 12⟩ ⟨"", "", "", "", none, "ua", ""⟩ none none none
     (Or.inl ⟨500, rfl⟩)).2⟩

/-- C4 counterexample: a location report with non-numeric coordinates
for an existing lost pet with a usable home location is a hard failure:
float() raises inside the distance rule and the exception escapes the
handler, refuting the claim that malformed coordinates are treated as
no location. -/
theorem C4_counterexample :
    (scan_geo ⟨true, 2, 10, 4, 22, 6⟩ (.delivered 204)
      ⟨[⟨"p", "P", "lost", some 1, some 1, none, none, none, none⟩], [], 0⟩
      "p" ⟨100, 12⟩ ⟨"", "", "", "", none, "ua", ""⟩
      (some .malformed) (some .malformed) none).1 = .error .valueError := rfl

/-- C4 amended: for a malformed coordinate the event is still recorded
(and the informational notification is delivered first), but when the
pet is lost and has a usable home location the distance rule applies
float() to the malformed coordinate, the ValueError escapes and the
call fails instead of skipping the rule. -/
theorem C4_malformed_hard_fail (cfg : Config) (s : ℕ) (db : DB)
    (pet_id : String) (now : Timestamp) (req : Req) (pet : Pet) (lv : JVal)
    (acc : Option JVal) (hla hlo : ℚ)
    (hpet : db_get_pet db pet_id = some pet) (hst : pet.status = "lost")
    (h1 : pet.home_lat = some hla) (h2 : pet.home_lon = some hlo)
    (h3 : hla ≠ 0) (h4 : hlo ≠ 0) :
    (scan_geo cfg (.delivered s) db pet_id now req
        (some .malformed) (some lv) acc).1 = .error .valueError ∧
    (scan_geo cfg (.delivered s) db pet_id now req
        (some .malformed) (some lv) acc).2.scans.length =
      db.scans.length + 1 := by
  have hnotify : discord_notify cfg.discord_enabled (.delivered s) =
      .ok () := by
    unfold discord_notify
    cases cfg.discord_enabled <;> simp
  have hmsa : ∀ d : DB, maybe_send_alerts cfg (.delivered s) d pet pet_id
      now (get_client_ip req) (some .malformed) (some lv) acc =
      .error .valueError := by
    intro d
    have heval : evalAlerts cfg d pet pet_id now
        (some .malformed) (some lv) = .error .valueError := by
      simp [evalAlerts, h1, h2, h3, h4, pyFloat, Bind.bind, Except.bind]
    unfold maybe_send_alerts
    rw [if_neg (by simp [hst]), heval]
  have hres : scan_geo cfg (.delivered s) db pet_id now req
      (some .malformed) (some lv) acc =
      (.error .valueError,
        db_update_last_seen (db_insert_scan db pet_id now
          (get_client_ip req) req.user_agent "" (some .malformed)
          (some lv) acc) pet_id now (some .malformed) (some lv) acc) := by
    unfold scan_geo
    rw [hpet]
    simp only [hnotify, hmsa]
  rw [hres]
  refine ⟨rfl, ?_⟩
  simp [db_update_last_seen, db_insert_scan]

/-- C4 amended witness: the concrete malformed report on a lost pet
with home coordinates fails with ValueError while its event row is
still appended to the log. -/
theorem C4_malformed_hard_fail_witness :
    (scan_geo ⟨true, 2, 10, 4, 22, 6⟩ (.delivered 204)
      ⟨[⟨"q", "Q", "lost", some 1, some 1, none, none, none, none⟩], [], 0⟩
      "q" ⟨100, 12⟩ ⟨"", "", "", "", none, "ua", ""⟩
      (some .malformed) (some (.num 2)) none).1 = .error .valueError ∧
    (scan_geo ⟨true, 2, 10, 4, 22, 6⟩ (.delivered 204)
      ⟨[⟨"q", "Q", "lost", some 1, some 1, none, none, none, none⟩], [], 0⟩
      "q" ⟨100, 12⟩ ⟨"", "", "", "", none, "ua", ""⟩
      (some .malformed) (some (.num 2)) none).2.scans.length =
      (DB.scans ⟨[⟨"q", "Q", "lost", some 1, some 1, none, none, none,
        none⟩], [], 0⟩).length + 1 :=
  C4_malformed_hard_fail ⟨true, 2, 10, 4, 22, 6⟩ 204
    ⟨[⟨"q", "Q", "lost", some 1, some 1, none, none, none, none⟩], [], 0⟩
    "q" ⟨100, 12⟩ ⟨"", "", "", "", none, "ua", ""⟩
    ⟨"q", "Q", "lost", some 1, some 1, none, none, none, none⟩
    (.num 2) none 1 1 (by decide) (by decide) (by decide) (by decide)
    (by decide) (by decide)
